import Mathlib

/-!
Verification of the ATEM connection library's command codec, state
synchronizer and acknowledgment tracker, as a shallow embedding of
`src/commands/MixEffects/Key/MixEffectKeyDVECommand.ts` and `src/atem.ts`.

A Node `Buffer` is modelled as its list of bytes.  Reads and writes follow
Node's semantics at the offsets the source uses; big-endian multi-byte
fields are decomposed into and recomposed from single bytes explicitly.
-/

namespace AtemConn

/-- A Node `Buffer`: the list of its bytes. -/
abbrev Buffer := List Nat

/-- `buf[i]`: the byte at index `i` (0 when the index is out of range). -/
def byteAt : Buffer → Nat → Nat
  | [], _ => 0
  | b :: _, 0 => b
  | _ :: bs, n + 1 => byteAt bs n

/-- `buf.readUInt8(i)`. -/
def readUInt8 (b : Buffer) (i : Nat) : Nat := byteAt b i

/-- `buf.readUInt16BE(i)`. -/
def readUInt16BE (b : Buffer) (i : Nat) : Nat :=
  byteAt b i * 2 ^ 8 + byteAt b (i + 1)

/-- `buf.readUInt32BE(i)`. -/
def readUInt32BE (b : Buffer) (i : Nat) : Nat :=
  byteAt b i * 2 ^ 24 + byteAt b (i + 1) * 2 ^ 16 + byteAt b (i + 2) * 2 ^ 8 + byteAt b (i + 3)

/-- `buf.readInt8(i)`: the byte reinterpreted as a signed 8-bit value. -/
def readInt8 (b : Buffer) (i : Nat) : Int :=
  if byteAt b i < 2 ^ 7 then (byteAt b i : Int) else (byteAt b i : Int) - 2 ^ 8

/-- `buf.readInt32BE(i)`: the big-endian 32-bit word reinterpreted as signed. -/
def readInt32BE (b : Buffer) (i : Nat) : Int :=
  if readUInt32BE b i < 2 ^ 31 then (readUInt32BE b i : Int)
  else (readUInt32BE b i : Int) - 2 ^ 32

/-- Two's-complement representation of `v` modulo `m` (the byte pattern the
`writeInt…BE`/`writeUInt…BE` family stores for an in-range value). -/
def twos (v : Int) (m : Nat) : Nat := (v % (m : Int)).toNat

/-- The single byte `buf.writeUInt8(v, i)` stores. -/
def u8byte (v : Int) : Nat := twos v (2 ^ 8)

/-- Byte 3 (most significant) of the word `buf.writeUInt32BE(v, i)` /
`buf.writeInt32BE(v, i)` stores. -/
def u32b3 (v : Int) : Nat := twos v (2 ^ 32) / 2 ^ 24 % 256

/-- Byte 2 of the word `writeUInt32BE`/`writeInt32BE` stores. -/
def u32b2 (v : Int) : Nat := twos v (2 ^ 32) / 2 ^ 16 % 256

/-- Byte 1 of the word `writeUInt32BE`/`writeInt32BE` stores. -/
def u32b1 (v : Int) : Nat := twos v (2 ^ 32) / 2 ^ 8 % 256

/-- Byte 0 (least significant) of the word `writeUInt32BE`/`writeInt32BE`
stores. -/
def u32b0 (v : Int) : Nat := twos v (2 ^ 32) % 256

/-- The most significant byte `buf.writeUInt16BE(v, i)` stores. -/
def u16hi (v : Int) : Nat := twos v (2 ^ 16) / 2 ^ 8 % 256

/-- The least significant byte `buf.writeUInt16BE(v, i)` stores. -/
def u16lo (v : Int) : Nat := twos v (2 ^ 16) % 256

/-- The byte `buffer[i] = b ? 1 : 0` stores. -/
def boolByte (b : Bool) : Nat := if b then 1 else 0

/-- `UpstreamKeyerDVESettings` (state/video/upstreamKeyers.ts): the DVE keyer
property record, with the fields exactly as the codec reads and writes them. -/
structure UpstreamKeyerDVESettings where
  sizeX : Int
  sizeY : Int
  positionX : Int
  positionY : Int
  rotation : Int
  borderEnabled : Bool
  shadowEnabled : Bool
  borderBevel : Int
  borderOuterWidth : Int
  borderInnerWidth : Int
  borderOuterSoftness : Int
  borderInnerSoftness : Int
  borderBevelSoftness : Int
  borderBevelPosition : Int
  borderOpacity : Int
  borderHue : Int
  borderSaturation : Int
  borderLuma : Int
  lightSourceDirection : Int
  lightSourceAltitude : Int
  maskEnabled : Bool
  maskTop : Int
  maskBottom : Int
  maskLeft : Int
  maskRight : Int
  rate : Int
deriving DecidableEq

/-- The setter command `CKDV` (MixEffectKeyDVECommand.ts, lines 6-81). -/
structure MixEffectKeyDVECommand where
  flag : Int
  mixEffect : Int
  upstreamKeyerId : Int
  properties : UpstreamKeyerDVESettings
deriving DecidableEq

/-- `MixEffectKeyDVECommand.serialize` (MixEffectKeyDVECommand.ts, lines
41-80): a 64-byte buffer; the mask-flag word at offset 0, `mixEffect` at 4,
`upstreamKeyerId` at 5, then the property fields at the source's offsets
(8, 12, 16, 20, 24, 28, 29, 30, 32, 34, 36, 37, 38, 39, 40, 42, 44, 46, 48,
50, 51, 52, 54, 56, 58, 60); bytes never written stay 0 from `Buffer.alloc`. -/
def MixEffectKeyDVECommand.serialize (c : MixEffectKeyDVECommand) : Buffer :=
  [u32b3 c.flag, u32b2 c.flag, u32b1 c.flag, u32b0 c.flag,                -- 0: flag
   u8byte c.mixEffect,                                                    -- 4
   u8byte c.upstreamKeyerId,                                              -- 5
   0, 0,
   u32b3 c.properties.sizeX, u32b2 c.properties.sizeX,                    -- 8
   u32b1 c.properties.sizeX, u32b0 c.properties.sizeX,
   u32b3 c.properties.sizeY, u32b2 c.properties.sizeY,                    -- 12
   u32b1 c.properties.sizeY, u32b0 c.properties.sizeY,
   u32b3 c.properties.positionX, u32b2 c.properties.positionX,            -- 16
   u32b1 c.properties.positionX, u32b0 c.properties.positionX,
   u32b3 c.properties.positionY, u32b2 c.properties.positionY,            -- 20
   u32b1 c.properties.positionY, u32b0 c.properties.positionY,
   u32b3 c.properties.rotation, u32b2 c.properties.rotation,              -- 24
   u32b1 c.properties.rotation, u32b0 c.properties.rotation,
   boolByte c.properties.borderEnabled,                                   -- 28
   boolByte c.properties.shadowEnabled,                                   -- 29
   u8byte c.properties.borderBevel,                                       -- 30
   0,
   u16hi c.properties.borderOuterWidth, u16lo c.properties.borderOuterWidth,  -- 32
   u16hi c.properties.borderInnerWidth, u16lo c.properties.borderInnerWidth,  -- 34
   u8byte c.properties.borderOuterSoftness,                               -- 36
   u8byte c.properties.borderInnerSoftness,                               -- 37
   u8byte c.properties.borderBevelSoftness,                               -- 38
   u8byte c.properties.borderBevelPosition,                               -- 39
   u8byte c.properties.borderOpacity,                                     -- 40
   0,
   u16hi c.properties.borderHue, u16lo c.properties.borderHue,            -- 42
   u16hi c.properties.borderSaturation, u16lo c.properties.borderSaturation,  -- 44
   u16hi c.properties.borderLuma, u16lo c.properties.borderLuma,          -- 46
   u16hi c.properties.lightSourceDirection, u16lo c.properties.lightSourceDirection,  -- 48
   u8byte c.properties.lightSourceAltitude,                               -- 50
   boolByte c.properties.maskEnabled,                                     -- 51
   u16hi c.properties.maskTop, u16lo c.properties.maskTop,                -- 52
   u16hi c.properties.maskBottom, u16lo c.properties.maskBottom,          -- 54
   u16hi c.properties.maskLeft, u16lo c.properties.maskLeft,              -- 56
   u16hi c.properties.maskRight, u16lo c.properties.maskRight,            -- 58
   u8byte c.properties.rate,                                              -- 60
   0, 0, 0]

/-- Modelled from the spec: `Util.parseNumberBetween` (lib/atemUtil.ts is not
among the repository files provided).  The spec's decode policy for a raw
value outside the field's valid numeric range is "to clamp to the nearest
valid bound and continue (never to abort the whole packet)". -/
def parseNumberBetween (v lo hi : Int) : Int :=
  if v < lo then lo else if v > hi then hi else v

/-- Modelled from the spec: the members of `Enums.BorderBevel` (enums.ts is
not among the repository files provided) — "enumerated fields validated
against a closed set of known values"; a four-member enumeration 0..3. -/
def borderBevelValues : List Int := [0, 1, 2, 3]

/-- Modelled from the spec: `Util.parseEnum` (lib/atemUtil.ts is not among
the repository files provided) validates an enumerated field against the
closed set of known values; a member is returned unchanged.  Theorems use it
only on members, so the fallback value for a non-member is immaterial here. -/
def parseEnum (v : Int) (valid : List Int) : Int :=
  if v ∈ valid then v else 0

/-- The notifier command `KeDV` (MixEffectKeyDVECommand.ts, lines 83-137). -/
structure MixEffectKeyDVEUpdateCommand where
  mixEffect : Int
  upstreamKeyerId : Int
  properties : UpstreamKeyerDVESettings
deriving DecidableEq

/-- `MixEffectKeyDVEUpdateCommand.deserialize` (MixEffectKeyDVECommand.ts,
lines 89-127), field for field at the source's offsets and ranges. -/
def MixEffectKeyDVEUpdateCommand.deserialize (rawCommand : Buffer) :
    MixEffectKeyDVEUpdateCommand where
  mixEffect := parseNumberBetween (readUInt8 rawCommand 0 : Int) 0 3
  upstreamKeyerId := parseNumberBetween (readUInt8 rawCommand 1 : Int) 0 3
  properties :=
    { sizeX := parseNumberBetween (readUInt32BE rawCommand 4 : Int) 0 (2 ^ 32 - 1)
      sizeY := parseNumberBetween (readUInt32BE rawCommand 8 : Int) 0 (2 ^ 32 - 1)
      positionX := parseNumberBetween (readInt32BE rawCommand 12) (-1000 * 1000) (1000 * 1000)
      positionY := parseNumberBetween (readInt32BE rawCommand 16) (-1000 * 1000) (1000 * 1000)
      rotation := parseNumberBetween (readInt32BE rawCommand 20) (-332230) 332230
      borderEnabled := byteAt rawCommand 24 == 1
      shadowEnabled := byteAt rawCommand 25 == 1
      borderBevel := parseEnum (readUInt8 rawCommand 26 : Int) borderBevelValues
      borderOuterWidth := parseNumberBetween (readUInt16BE rawCommand 28 : Int) 0 1600
      borderInnerWidth := parseNumberBetween (readUInt16BE rawCommand 30 : Int) 0 1600
      borderOuterSoftness := parseNumberBetween (readInt8 rawCommand 32) 0 100
      borderInnerSoftness := parseNumberBetween (readInt8 rawCommand 33) 0 100
      borderBevelSoftness := parseNumberBetween (readInt8 rawCommand 34) 0 100
      borderBevelPosition := parseNumberBetween (readInt8 rawCommand 35) 0 100
      borderOpacity := parseNumberBetween (readInt8 rawCommand 36) 0 100
      borderHue := parseNumberBetween (readUInt16BE rawCommand 38 : Int) 0 3600
      borderSaturation := parseNumberBetween (readUInt16BE rawCommand 40 : Int) 0 1000
      borderLuma := parseNumberBetween (readUInt16BE rawCommand 42 : Int) 0 1000
      lightSourceDirection := parseNumberBetween (readUInt16BE rawCommand 44 : Int) 0 3599
      lightSourceAltitude := parseNumberBetween (readUInt8 rawCommand 46 : Int) 0 100
      maskEnabled := byteAt rawCommand 47 == 1
      maskTop := parseNumberBetween (readUInt16BE rawCommand 48 : Int) 0 38000
      maskBottom := parseNumberBetween (readUInt16BE rawCommand 50 : Int) 0 38000
      maskLeft := parseNumberBetween (readUInt16BE rawCommand 52 : Int) 0 52000
      maskRight := parseNumberBetween (readUInt16BE rawCommand 54 : Int) 0 52000
      rate := parseNumberBetween (readUInt8 rawCommand 56 : Int) 0 250 }


/-- The numeric fields of a DVE settings value all lie within the ranges the
deserializer documents (its `parseNumberBetween`/`parseEnum` bounds). -/
def UpstreamKeyerDVESettings.valid (p : UpstreamKeyerDVESettings) : Prop :=
  0 ≤ p.sizeX ∧ p.sizeX ≤ 2 ^ 32 - 1 ∧
  0 ≤ p.sizeY ∧ p.sizeY ≤ 2 ^ 32 - 1 ∧
  -1000 * 1000 ≤ p.positionX ∧ p.positionX ≤ 1000 * 1000 ∧
  -1000 * 1000 ≤ p.positionY ∧ p.positionY ≤ 1000 * 1000 ∧
  -332230 ≤ p.rotation ∧ p.rotation ≤ 332230 ∧
  p.borderBevel ∈ borderBevelValues ∧
  0 ≤ p.borderOuterWidth ∧ p.borderOuterWidth ≤ 1600 ∧
  0 ≤ p.borderInnerWidth ∧ p.borderInnerWidth ≤ 1600 ∧
  0 ≤ p.borderOuterSoftness ∧ p.borderOuterSoftness ≤ 100 ∧
  0 ≤ p.borderInnerSoftness ∧ p.borderInnerSoftness ≤ 100 ∧
  0 ≤ p.borderBevelSoftness ∧ p.borderBevelSoftness ≤ 100 ∧
  0 ≤ p.borderBevelPosition ∧ p.borderBevelPosition ≤ 100 ∧
  0 ≤ p.borderOpacity ∧ p.borderOpacity ≤ 100 ∧
  0 ≤ p.borderHue ∧ p.borderHue ≤ 3600 ∧
  0 ≤ p.borderSaturation ∧ p.borderSaturation ≤ 1000 ∧
  0 ≤ p.borderLuma ∧ p.borderLuma ≤ 1000 ∧
  0 ≤ p.lightSourceDirection ∧ p.lightSourceDirection ≤ 3599 ∧
  0 ≤ p.lightSourceAltitude ∧ p.lightSourceAltitude ≤ 100 ∧
  0 ≤ p.maskTop ∧ p.maskTop ≤ 38000 ∧
  0 ≤ p.maskBottom ∧ p.maskBottom ≤ 38000 ∧
  0 ≤ p.maskLeft ∧ p.maskLeft ≤ 52000 ∧
  0 ≤ p.maskRight ∧ p.maskRight ≤ 52000 ∧
  0 ≤ p.rate ∧ p.rate ≤ 250

instance (p : UpstreamKeyerDVESettings) : Decidable p.valid := by
  unfold UpstreamKeyerDVESettings.valid
  infer_instance

/-! ## Association lists

A JavaScript object or sparse array used as a keyed map is modelled as an
association list.  `alSet` is assignment `obj[k] = x` (replace or append),
`alErase` is `delete obj[k]`, `alLookup` is `obj[k]`. -/

/-- `obj[k]`, as an `Option`. -/
def alLookup {κ α : Type} [DecidableEq κ] : List (κ × α) → κ → Option α
  | [], _ => none
  | (k, x) :: rest, key => if k = key then some x else alLookup rest key

/-- `obj[k] = x`: replace the key's entry, or append a new one. -/
def alSet {κ α : Type} [DecidableEq κ] : List (κ × α) → κ → α → List (κ × α)
  | [], key, x => [(key, x)]
  | (k, y) :: rest, key, x =>
      if k = key then (k, x) :: rest else (k, y) :: alSet rest key x

/-- `delete obj[k]`: remove every entry with the key. -/
def alErase {κ α : Type} [DecidableEq κ] : List (κ × α) → κ → List (κ × α)
  | [], _ => []
  | (k, y) :: rest, key =>
      if k = key then alErase rest key else (k, y) :: alErase rest key

/-! ## The mirrored state tree

Only the nodes the verified commands touch are modelled.  The state classes
(state/index.ts, state/video/index.ts, state/video/upstreamKeyers.ts) are not
among the repository files provided, so their shape is modelled from the
spec: a nested, keyed structure, with nested nodes created lazily when an
addressed index has not been seen before. -/

/-- Modelled from the spec: an upstream-keyer node of the Mirrored State
Tree.  `onAir` and `fillSource` stand for the keyer's fields other than
`dveSettings`; the frame theorems show them untouched. -/
structure UpstreamKeyer where
  onAir : Bool
  fillSource : Int
  dveSettings : UpstreamKeyerDVESettings
deriving DecidableEq

/-- The all-zero DVE settings a lazily created keyer starts with. -/
def defaultDVESettings : UpstreamKeyerDVESettings :=
  { sizeX := 0, sizeY := 0, positionX := 0, positionY := 0, rotation := 0,
    borderEnabled := false, shadowEnabled := false, borderBevel := 0,
    borderOuterWidth := 0, borderInnerWidth := 0, borderOuterSoftness := 0,
    borderInnerSoftness := 0, borderBevelSoftness := 0, borderBevelPosition := 0,
    borderOpacity := 0, borderHue := 0, borderSaturation := 0, borderLuma := 0,
    lightSourceDirection := 0, lightSourceAltitude := 0, maskEnabled := false,
    maskTop := 0, maskBottom := 0, maskLeft := 0, maskRight := 0, rate := 0 }

/-- The keyer node `getUpstreamKeyer` creates lazily. -/
def defaultUpstreamKeyer : UpstreamKeyer :=
  { onAir := false, fillSource := 0, dveSettings := defaultDVESettings }

/-- Modelled from the spec: a mix-effect bus node.  `programInput` and
`previewInput` stand for the bus's fields other than its keyers (the spec's
example path `video.ME.2.programInput` names one). -/
structure MixEffect where
  programInput : Int
  previewInput : Int
  upstreamKeyers : List (Int × UpstreamKeyer)
deriving DecidableEq

/-- The mix-effect node `getMe` creates lazily. -/
def defaultMixEffect : MixEffect :=
  { programInput := 0, previewInput := 0, upstreamKeyers := [] }

/-- The `video` subtree: mix-effect buses keyed by index (`state.video.ME`). -/
structure AtemVideoState where
  ME : List (Int × MixEffect)
deriving DecidableEq

/-- `state.info`: what the device reported at connect time, carrying the
protocol version that gates command variants (atem.ts line 365). -/
structure InfoState where
  apiVersion : Nat
deriving DecidableEq

/-- The Mirrored State Tree root (`AtemState`), restricted to the subtrees
the verified commands read or write. -/
structure AtemState where
  info : InfoState
  video : AtemVideoState
deriving DecidableEq

/-- The keyer node at `video.ME.m.upstreamKeyers.k`, when both exist. -/
def AtemState.lookupKeyer (s : AtemState) (m k : Int) : Option UpstreamKeyer :=
  (alLookup s.video.ME m).bind fun me => alLookup me.upstreamKeyers k

/-- `MixEffectKeyDVEUpdateCommand.applyToState` (MixEffectKeyDVECommand.ts,
lines 129-136): fetch the mix effect (`state.video.getMe`, created lazily if
absent, as the spec requires of the synchronizer) and its keyer
(`getUpstreamKeyer`, likewise), replace that keyer's `dveSettings` with the
command's properties, and return the changed path. -/
def MixEffectKeyDVEUpdateCommand.applyToState (c : MixEffectKeyDVEUpdateCommand)
    (state : AtemState) : AtemState × String :=
  let mixEffect := (alLookup state.video.ME c.mixEffect).getD defaultMixEffect
  let upstreamKeyer :=
    (alLookup mixEffect.upstreamKeyers c.upstreamKeyerId).getD defaultUpstreamKeyer
  let mixEffect' :=
    { mixEffect with
        upstreamKeyers := alSet mixEffect.upstreamKeyers c.upstreamKeyerId
          { upstreamKeyer with dveSettings := c.properties } }
  ({ state with video := { ME := alSet state.video.ME c.mixEffect mixEffect' } },
   "video.ME." ++ toString c.mixEffect ++ ".upstreamKeyers." ++
     toString c.upstreamKeyerId ++ ".dveSettings")

/-- `Atem._mutateState` (atem.ts, lines 544-551) applied to a decoded
`MixEffectKeyDVEUpdateCommand`: `applyToState` returns a single (non-array)
path, which is wrapped into a one-element array, and one `stateChanged`
event is emitted per element; the data-transfer dispatch (lines 552-556)
does not fire for this command class.  Returns the new tree and the list of
emitted `stateChanged` paths. -/
def Atem._mutateState (c : MixEffectKeyDVEUpdateCommand) (state : AtemState) :
    AtemState × List String :=
  let r := c.applyToState state
  (r.1, [r.2])

/-! ## Commands, the sent-queue and promise settlement -/

/-- `Partial<SuperSourceProperties>`: the super-source property record is one
of the plain data records the spec excludes from the core, so it is kept
opaque — a bag of named property assignments. -/
abbrev SuperSourceProps := List (String × Int)

/-- The outbound commands the verified call sites construct
(`AbstractCommand` values); `generic` stands for any other command. -/
inductive Cmd where
  | mixEffectKeyDVE (c : MixEffectKeyDVECommand)
  | superSourcePropertiesV8 (ssrcId : Int) (props : SuperSourceProps)
  | superSourceProperties (props : SuperSourceProps)
  | generic (id : Nat)
deriving DecidableEq

/-- Whether a settled promise was resolved or rejected. -/
inductive SettleKind where
  | resolved
  | rejected
deriving DecidableEq

/-- The value a settled promise carries.  `_resolveCommand` and
`_rejectCommand` settle with the stored command object itself (`cmd`);
`connectionLost` is the error value the spec's wording describes, present so
the two outcomes can be told apart. -/
inductive SettleValue where
  | cmd (c : Cmd)
  | connectionLost
deriving DecidableEq

/-- One settlement of a tracked command's promise. -/
structure SettleEvent where
  trackingId : Nat
  kind : SettleKind
  value : SettleValue
deriving DecidableEq

/-- Modelled from the spec: the state of `AtemSocket` (lib/atemSocket.ts is
not among the repository files provided) that `Atem` observes — the session
engine's "local sequence counter for outgoing packets". -/
structure AtemSocket where
  localPacketId : Nat
deriving DecidableEq

/-- Modelled from the spec: `AtemSocket.nextPacketId` — the wire sequence
number the next outgoing packet will carry ("assigns each outgoing packet
the next local sequence number"). -/
def AtemSocket.nextPacketId (s : AtemSocket) : Nat := s.localPacketId

/-- The `Atem` class state (atem.ts): the mirrored state tree, the
`_sentQueue` keyed by tracking identifier, and the socket.  `settled` logs
every promise settlement `_resolveCommand`/`_rejectCommand` performs, in
order, so that at-most-once settlement is observable. -/
structure Atem where
  state : AtemState
  _sentQueue : List (Nat × Cmd)
  settled : List SettleEvent
  socket : AtemSocket
deriving DecidableEq

/-- `Atem.sendCommand` (atem.ts, lines 107-115): read `socket.nextPacketId`,
register the command in `_sentQueue` under it, install the promise's
resolve/reject on the command, and hand the command to
`socket._sendCommand`, which frames the packet (modelled from the spec:
framing advances the wire counter).  Returns the tracking identifier the
command was registered under. -/
def Atem.sendCommand (a : Atem) (command : Cmd) : Atem × Nat :=
  let nextPacketId := a.socket.nextPacketId
  ({ a with _sentQueue := alSet a._sentQueue nextPacketId command,
            socket := { localPacketId := a.socket.localPacketId + 1 } },
   nextPacketId)

/-- `Atem._resolveCommand` (atem.ts, lines 559-564), run when the socket
reports `CommandAcknowledged` for a tracking identifier (line 90): if the
identifier is in `_sentQueue`, resolve the stored command's promise with the
stored command and delete the entry; otherwise do nothing. -/
def Atem._resolveCommand (a : Atem) (trackingId : Nat) : Atem :=
  match alLookup a._sentQueue trackingId with
  | some c =>
      { a with _sentQueue := alErase a._sentQueue trackingId,
               settled := a.settled ++
                 [{ trackingId := trackingId, kind := SettleKind.resolved,
                    value := SettleValue.cmd c }] }
  | none => a

/-- `Atem._rejectCommand` (atem.ts, lines 566-571), run when the socket
reports `CommandTimeout` for a tracking identifier (line 91): if the
identifier is in `_sentQueue`, reject the stored command's promise with the
stored command and delete the entry; otherwise do nothing. -/
def Atem._rejectCommand (a : Atem) (trackingId : Nat) : Atem :=
  match alLookup a._sentQueue trackingId with
  | some c =>
      { a with _sentQueue := alErase a._sentQueue trackingId,
               settled := a.settled ++
                 [{ trackingId := trackingId, kind := SettleKind.rejected,
                    value := SettleValue.cmd c }] }
  | none => a

/-- Modelled from the spec: what reaches `Atem` when the session engine
disconnects — "On Session Engine disconnect, every outstanding tracking
identifier is rejected"; the socket delivers a timeout per outstanding
identifier and atem.ts routes each to `_rejectCommand` (line 91). -/
def Atem.onDisconnect (a : Atem) : Atem :=
  (a._sentQueue.map Prod.fst).foldl Atem._rejectCommand a

/-- Modelled from the spec: `Enums.ProtocolVersion.V8_0` (enums.ts is not
among the repository files provided).  Only its position in the version
order matters here: the reported `apiVersion` is compared against it. -/
def ProtocolVersion.V8_0 : Nat := 8

/-- `Atem.setSuperSourceProperties` (atem.ts, lines 364-375): when the
mirrored state's `info.apiVersion` is at least `V8_0`, build a
`SuperSourcePropertiesV8Command` carrying `ssrcId`; otherwise build the
legacy `SuperSourcePropertiesCommand` (which has no `ssrcId` field); either
way submit it through `sendCommand`.  Returns the new state, the tracking
identifier and the command built. -/
def Atem.setSuperSourceProperties (a : Atem) (newProps : SuperSourceProps)
    (ssrcId : Int) : Atem × Nat × Cmd :=
  if ProtocolVersion.V8_0 ≤ a.state.info.apiVersion then
    let command := Cmd.superSourcePropertiesV8 ssrcId newProps
    let r := a.sendCommand command
    (r.1, r.2, command)
  else
    let command := Cmd.superSourceProperties newProps
    let r := a.sendCommand command
    (r.1, r.2, command)

/-! ## Concrete sample values for the witness theorems -/

/-- A DVE settings value with every numeric field strictly inside its valid
range and distinct from its neighbours. -/
def sampleDVESettings : UpstreamKeyerDVESettings :=
  { sizeX := 123456, sizeY := 654321, positionX := -987654, positionY := 424242,
    rotation := -300000, borderEnabled := true, shadowEnabled := false,
    borderBevel := 2, borderOuterWidth := 1500, borderInnerWidth := 7,
    borderOuterSoftness := 99, borderInnerSoftness := 1, borderBevelSoftness := 50,
    borderBevelPosition := 49, borderOpacity := 100, borderHue := 3599,
    borderSaturation := 999, borderLuma := 1, lightSourceDirection := 3598,
    lightSourceAltitude := 42, maskEnabled := true, maskTop := 37999,
    maskBottom := 12345, maskLeft := 51999, maskRight := 2, rate := 250 }

/-- A concrete `CKDV` command for the round-trip witness. -/
def sampleDVECommand : MixEffectKeyDVECommand :=
  { flag := 67108863, mixEffect := 2, upstreamKeyerId := 3,
    properties := sampleDVESettings }

/-- A concrete decoded `KeDV` command addressing bus 1, keyer 2. -/
def sampleDVEUpdate : MixEffectKeyDVEUpdateCommand :=
  { mixEffect := 1, upstreamKeyerId := 2, properties := sampleDVESettings }

/-- A keyer node with recognizable non-default fields. -/
def sampleKeyer : UpstreamKeyer :=
  { onAir := true, fillSource := 31, dveSettings := defaultDVESettings }

/-- A mix-effect node holding keyers 0 and 2. -/
def sampleME1 : MixEffect :=
  { programInput := 7, previewInput := 8,
    upstreamKeyers := [(0, defaultUpstreamKeyer), (2, sampleKeyer)] }

/-- A state tree with two buses; bus 1 is `sampleME1`. -/
def sampleState : AtemState :=
  { info := { apiVersion := 9 },
    video :=
      { ME :=
          [(0, { programInput := 4, previewInput := 5, upstreamKeyers := [] }),
           (1, sampleME1)] } }

/-- An `Atem` with two pending tracked commands, ids 5 and 9. -/
def sampleAtem : Atem :=
  { state := sampleState,
    _sentQueue := [(5, Cmd.generic 7), (9, Cmd.mixEffectKeyDVE sampleDVECommand)],
    settled := [],
    socket := { localPacketId := 10 } }

/-- `sampleAtem` with the wire sequence counter at 5 and nothing pending. -/
def sampleAtemAt5 : Atem :=
  { state := sampleState, _sentQueue := [], settled := [],
    socket := { localPacketId := 5 } }

/-- `sampleAtemAt5` with the wire sequence counter moved to 9: the two
differ only in the socket's wire sequence counter. -/
def sampleAtemAt9 : Atem :=
  { state := sampleState, _sentQueue := [], settled := [],
    socket := { localPacketId := 9 } }

/-- The serialized `CKDV` buffer is 64 bytes, as `Buffer.alloc(64)` fixes. -/
theorem serialize_length (c : MixEffectKeyDVECommand) :
    (c.serialize).length = 64 := rfl

/-- Byte offsets: reading the serialized buffer from offset 4 onward lands on
the bytes `serialize` wrote for each field (offset `i` here is offset `i + 4`
of the full buffer).  Each of the following lemmas evaluates one read of
`deserialize` against `serialize`'s layout. -/
theorem dser0 (c : MixEffectKeyDVECommand) :
    readUInt8 ((c.serialize).drop 4) 0 = u8byte c.mixEffect := rfl

theorem dser1 (c : MixEffectKeyDVECommand) :
    readUInt8 ((c.serialize).drop 4) 1 = u8byte c.upstreamKeyerId := rfl

theorem dser4 (c : MixEffectKeyDVECommand) :
    readUInt32BE ((c.serialize).drop 4) 4 =
      u32b3 c.properties.sizeX * 2 ^ 24 + u32b2 c.properties.sizeX * 2 ^ 16 +
        u32b1 c.properties.sizeX * 2 ^ 8 + u32b0 c.properties.sizeX := rfl

theorem dser8 (c : MixEffectKeyDVECommand) :
    readUInt32BE ((c.serialize).drop 4) 8 =
      u32b3 c.properties.sizeY * 2 ^ 24 + u32b2 c.properties.sizeY * 2 ^ 16 +
        u32b1 c.properties.sizeY * 2 ^ 8 + u32b0 c.properties.sizeY := rfl

theorem dser12 (c : MixEffectKeyDVECommand) :
    readUInt32BE ((c.serialize).drop 4) 12 =
      u32b3 c.properties.positionX * 2 ^ 24 + u32b2 c.properties.positionX * 2 ^ 16 +
        u32b1 c.properties.positionX * 2 ^ 8 + u32b0 c.properties.positionX := rfl

theorem dser16 (c : MixEffectKeyDVECommand) :
    readUInt32BE ((c.serialize).drop 4) 16 =
      u32b3 c.properties.positionY * 2 ^ 24 + u32b2 c.properties.positionY * 2 ^ 16 +
        u32b1 c.properties.positionY * 2 ^ 8 + u32b0 c.properties.positionY := rfl

theorem dser20 (c : MixEffectKeyDVECommand) :
    readUInt32BE ((c.serialize).drop 4) 20 =
      u32b3 c.properties.rotation * 2 ^ 24 + u32b2 c.properties.rotation * 2 ^ 16 +
        u32b1 c.properties.rotation * 2 ^ 8 + u32b0 c.properties.rotation := rfl

theorem dser28 (c : MixEffectKeyDVECommand) :
    readUInt16BE ((c.serialize).drop 4) 28 =
      u16hi c.properties.borderOuterWidth * 2 ^ 8 + u16lo c.properties.borderOuterWidth := rfl

theorem dser30 (c : MixEffectKeyDVECommand) :
    readUInt16BE ((c.serialize).drop 4) 30 =
      u16hi c.properties.borderInnerWidth * 2 ^ 8 + u16lo c.properties.borderInnerWidth := rfl

theorem dser38 (c : MixEffectKeyDVECommand) :
    readUInt16BE ((c.serialize).drop 4) 38 =
      u16hi c.properties.borderHue * 2 ^ 8 + u16lo c.properties.borderHue := rfl

theorem dser40 (c : MixEffectKeyDVECommand) :
    readUInt16BE ((c.serialize).drop 4) 40 =
      u16hi c.properties.borderSaturation * 2 ^ 8 + u16lo c.properties.borderSaturation := rfl

theorem dser42 (c : MixEffectKeyDVECommand) :
    readUInt16BE ((c.serialize).drop 4) 42 =
      u16hi c.properties.borderLuma * 2 ^ 8 + u16lo c.properties.borderLuma := rfl

theorem dser44 (c : MixEffectKeyDVECommand) :
    readUInt16BE ((c.serialize).drop 4) 44 =
      u16hi c.properties.lightSourceDirection * 2 ^ 8 + u16lo c.properties.lightSourceDirection := rfl

theorem dser48 (c : MixEffectKeyDVECommand) :
    readUInt16BE ((c.serialize).drop 4) 48 =
      u16hi c.properties.maskTop * 2 ^ 8 + u16lo c.properties.maskTop := rfl

theorem dser50 (c : MixEffectKeyDVECommand) :
    readUInt16BE ((c.serialize).drop 4) 50 =
      u16hi c.properties.maskBottom * 2 ^ 8 + u16lo c.properties.maskBottom := rfl

theorem dser52 (c : MixEffectKeyDVECommand) :
    readUInt16BE ((c.serialize).drop 4) 52 =
      u16hi c.properties.maskLeft * 2 ^ 8 + u16lo c.properties.maskLeft := rfl

theorem dser54 (c : MixEffectKeyDVECommand) :
    readUInt16BE ((c.serialize).drop 4) 54 =
      u16hi c.properties.maskRight * 2 ^ 8 + u16lo c.properties.maskRight := rfl

theorem dser26 (c : MixEffectKeyDVECommand) :
    readUInt8 ((c.serialize).drop 4) 26 = u8byte c.properties.borderBevel := rfl

theorem dser46 (c : MixEffectKeyDVECommand) :
    readUInt8 ((c.serialize).drop 4) 46 = u8byte c.properties.lightSourceAltitude := rfl

theorem dser56 (c : MixEffectKeyDVECommand) :
    readUInt8 ((c.serialize).drop 4) 56 = u8byte c.properties.rate := rfl

theorem dser32 (c : MixEffectKeyDVECommand) :
    byteAt ((c.serialize).drop 4) 32 = u8byte c.properties.borderOuterSoftness := rfl

theorem dser33 (c : MixEffectKeyDVECommand) :
    byteAt ((c.serialize).drop 4) 33 = u8byte c.properties.borderInnerSoftness := rfl

theorem dser34 (c : MixEffectKeyDVECommand) :
    byteAt ((c.serialize).drop 4) 34 = u8byte c.properties.borderBevelSoftness := rfl

theorem dser35 (c : MixEffectKeyDVECommand) :
    byteAt ((c.serialize).drop 4) 35 = u8byte c.properties.borderBevelPosition := rfl

theorem dser36 (c : MixEffectKeyDVECommand) :
    byteAt ((c.serialize).drop 4) 36 = u8byte c.properties.borderOpacity := rfl

theorem dser24 (c : MixEffectKeyDVECommand) :
    byteAt ((c.serialize).drop 4) 24 = boolByte c.properties.borderEnabled := rfl

theorem dser25 (c : MixEffectKeyDVECommand) :
    byteAt ((c.serialize).drop 4) 25 = boolByte c.properties.shadowEnabled := rfl

theorem dser47 (c : MixEffectKeyDVECommand) :
    byteAt ((c.serialize).drop 4) 47 = boolByte c.properties.maskEnabled := rfl


/-! ## Association-list lemmas -/

theorem alLookup_alSet_self {κ α : Type} [DecidableEq κ] (l : List (κ × α)) (k : κ) (x : α) :
    alLookup (alSet l k x) k = some x := by
  induction l with
  | nil => simp [alSet, alLookup]
  | cons hd tl ih =>
      obtain ⟨k0, y⟩ := hd
      by_cases h : k0 = k <;> simp [alSet, alLookup, h, ih]

theorem alLookup_alSet_ne {κ α : Type} [DecidableEq κ] (l : List (κ × α)) (k k' : κ) (x : α)
    (h : k' ≠ k) : alLookup (alSet l k x) k' = alLookup l k' := by
  induction l with
  | nil => simp [alSet, alLookup, Ne.symm h]
  | cons hd tl ih =>
      obtain ⟨k0, y⟩ := hd
      by_cases h0 : k0 = k
      · subst h0
        simp [alSet, alLookup, Ne.symm h]
      · by_cases h1 : k0 = k' <;> simp [alSet, alLookup, h0, h1, h, ih]

theorem alSet_alSet_self {κ α : Type} [DecidableEq κ] (l : List (κ × α)) (k : κ) (x y : α) :
    alSet (alSet l k x) k y = alSet l k y := by
  induction l with
  | nil => simp [alSet]
  | cons hd tl ih =>
      obtain ⟨k0, z⟩ := hd
      by_cases h0 : k0 = k <;> simp [alSet, h0, ih]

theorem alLookup_alErase_self {κ α : Type} [DecidableEq κ] (l : List (κ × α)) (k : κ) :
    alLookup (alErase l k) k = none := by
  induction l with
  | nil => simp [alErase, alLookup]
  | cons hd tl ih =>
      obtain ⟨k0, y⟩ := hd
      by_cases h0 : k0 = k <;> simp [alErase, alLookup, h0, ih]

theorem alErase_of_not_mem {κ α : Type} [DecidableEq κ] (l : List (κ × α)) (k : κ)
    (h : k ∉ l.map Prod.fst) : alErase l k = l := by
  induction l with
  | nil => simp [alErase]
  | cons hd tl ih =>
      obtain ⟨k0, y⟩ := hd
      simp only [List.map_cons, List.mem_cons] at h
      push_neg at h
      simp [alErase, Ne.symm h.1, ih h.2]

/-! ## Clamp lemmas for the spec-modelled decode policy -/

theorem parseNumberBetween_lt (v lo hi : Int) (h : v < lo) :
    parseNumberBetween v lo hi = lo := by
  unfold parseNumberBetween
  split_ifs
  all_goals omega

theorem parseNumberBetween_gt (v lo hi : Int) (h : hi < v) (h2 : lo ≤ hi) :
    parseNumberBetween v lo hi = hi := by
  unfold parseNumberBetween; split_ifs <;> omega

theorem parseNumberBetween_mem (v lo hi : Int) (h1 : lo ≤ v) (h2 : v ≤ hi) :
    parseNumberBetween v lo hi = v := by
  unfold parseNumberBetween; split_ifs <;> omega

theorem parseNumberBetween_bounds (v lo hi : Int) (h : lo ≤ hi) :
    lo ≤ parseNumberBetween v lo hi ∧ parseNumberBetween v lo hi ≤ hi := by
  unfold parseNumberBetween; split_ifs <;> omega

theorem parseEnum_bb_mem (v : Int) :
    parseEnum v borderBevelValues ∈ borderBevelValues := by
  unfold parseEnum
  split_ifs with h
  · exact h
  · decide

/-! ## The claims -/

set_option maxHeartbeats 1000000 in
/-- C1: round-trip law for the DVE keyer command pair.  For every
`UpstreamKeyerDVESettings` whose numeric fields lie within the
deserializer's documented valid ranges and every `mixEffect` and
`upstreamKeyerId` in 0..3, deserializing the buffer `serialize` produced,
from byte offset 4 onward (skipping the 4-byte mask-flag word), recovers
the same `mixEffect`, `upstreamKeyerId` and every property field. -/
theorem dve_serialize_roundtrip (c : MixEffectKeyDVECommand)
    (hme0 : 0 ≤ c.mixEffect) (hme1 : c.mixEffect ≤ 3)
    (huk0 : 0 ≤ c.upstreamKeyerId) (huk1 : c.upstreamKeyerId ≤ 3)
    (hp : c.properties.valid) :
    MixEffectKeyDVEUpdateCommand.deserialize ((c.serialize).drop 4) =
      { mixEffect := c.mixEffect, upstreamKeyerId := c.upstreamKeyerId,
        properties := c.properties } := by
  obtain ⟨flag, me, uk, p⟩ := c
  obtain ⟨sx, sy, px, py, rot, bE, sE, bb, bow, biw, bos, bis, bbs, bbp, bop,
    bh, bsat, bl, lsd, lsa, mEn, mt, mb, ml, mr, rte⟩ := p
  dsimp only [UpstreamKeyerDVESettings.valid] at hme0 hme1 huk0 huk1 hp ⊢
  obtain ⟨h1, h2, h3, h4, h5, h6, h7, h8, h9, h10, hbb, h11, h12, h13, h14, h15, h16,
    h17, h18, h19, h20, h21, h22, h23, h24, h25, h26, h27, h28, h29, h30, h31, h32,
    h33, h34, h35, h36, h37, h38, h39, h40, h41, h42, h43, h44⟩ := hp
  simp only [MixEffectKeyDVEUpdateCommand.deserialize, readInt32BE, readInt8,
    dser0, dser1, dser4, dser8, dser12, dser16, dser20, dser24, dser25, dser26,
    dser28, dser30, dser32, dser33, dser34, dser35, dser36, dser38, dser40,
    dser42, dser44, dser46, dser47, dser48, dser50, dser52, dser54, dser56,
    MixEffectKeyDVEUpdateCommand.mk.injEq, UpstreamKeyerDVESettings.mk.injEq]
  refine ⟨?_, ?_, ?_, ?_, ?_, ?_, ?_, ?_, ?_, ?_, ?_, ?_, ?_, ?_, ?_, ?_, ?_, ?_,
    ?_, ?_, ?_, ?_, ?_, ?_, ?_, ?_, ?_, ?_⟩
  case _ => unfold parseNumberBetween u8byte twos; split_ifs <;> omega
  case _ => unfold parseNumberBetween u8byte twos; split_ifs <;> omega
  case _ => unfold parseNumberBetween u32b3 u32b2 u32b1 u32b0 twos; split_ifs <;> omega
  case _ => unfold parseNumberBetween u32b3 u32b2 u32b1 u32b0 twos; split_ifs <;> omega
  case _ => unfold parseNumberBetween u32b3 u32b2 u32b1 u32b0 twos; split_ifs <;> omega
  case _ => unfold parseNumberBetween u32b3 u32b2 u32b1 u32b0 twos; split_ifs <;> omega
  case _ => unfold parseNumberBetween u32b3 u32b2 u32b1 u32b0 twos; split_ifs <;> omega
  case _ => cases bE <;> rfl
  case _ => cases sE <;> rfl
  case _ =>
    simp only [borderBevelValues, List.mem_cons, List.not_mem_nil, or_false] at hbb
    rcases hbb with hv | hv | hv | hv <;> rw [hv] <;> decide
  case _ => unfold parseNumberBetween u16hi u16lo twos; split_ifs <;> omega
  case _ => unfold parseNumberBetween u16hi u16lo twos; split_ifs <;> omega
  case _ => unfold parseNumberBetween u8byte twos; split_ifs <;> omega
  case _ => unfold parseNumberBetween u8byte twos; split_ifs <;> omega
  case _ => unfold parseNumberBetween u8byte twos; split_ifs <;> omega
  case _ => unfold parseNumberBetween u8byte twos; split_ifs <;> omega
  case _ => unfold parseNumberBetween u8byte twos; split_ifs <;> omega
  case _ => unfold parseNumberBetween u16hi u16lo twos; split_ifs <;> omega
  case _ => unfold parseNumberBetween u16hi u16lo twos; split_ifs <;> omega
  case _ => unfold parseNumberBetween u16hi u16lo twos; split_ifs <;> omega
  case _ => unfold parseNumberBetween u16hi u16lo twos; split_ifs <;> omega
  case _ => unfold parseNumberBetween u8byte twos; split_ifs <;> omega
  case _ => cases mEn <;> rfl
  case _ => unfold parseNumberBetween u16hi u16lo twos; split_ifs <;> omega
  case _ => unfold parseNumberBetween u16hi u16lo twos; split_ifs <;> omega
  case _ => unfold parseNumberBetween u16hi u16lo twos; split_ifs <;> omega
  case _ => unfold parseNumberBetween u16hi u16lo twos; split_ifs <;> omega
  case _ => unfold parseNumberBetween u8byte twos; split_ifs <;> omega

/-- C1 witness: the round trip at a concrete command whose fields are all
in range and mutually distinct. -/
theorem dve_serialize_roundtrip_witness :
    MixEffectKeyDVEUpdateCommand.deserialize ((sampleDVECommand.serialize).drop 4) =
      { mixEffect := sampleDVECommand.mixEffect,
        upstreamKeyerId := sampleDVECommand.upstreamKeyerId,
        properties := sampleDVECommand.properties } :=
  dve_serialize_roundtrip sampleDVECommand (by decide) (by decide) (by decide)
    (by decide) (by decide)

/-- C2: decode clamping policy.  For every raw notifier buffer, a numeric
field whose raw value lies outside its valid range is mapped to the nearest
valid bound (shown in full for the claim's example fields `rotation` and
`rate`: below range gives the lower bound, above range the upper bound,
in range the raw value itself), decoding continues for the remaining fields
and never aborts — the embedding of `deserialize` is a total function, and
every numeric field of every decode, including `mixEffect` and
`upstreamKeyerId`, lands inside its valid range. -/
theorem dve_deserialize_clamps (raw : Buffer) :
    (readInt32BE raw 20 < -332230 →
      (MixEffectKeyDVEUpdateCommand.deserialize raw).properties.rotation = -332230) ∧
    (332230 < readInt32BE raw 20 →
      (MixEffectKeyDVEUpdateCommand.deserialize raw).properties.rotation = 332230) ∧
    (-332230 ≤ readInt32BE raw 20 → readInt32BE raw 20 ≤ 332230 →
      (MixEffectKeyDVEUpdateCommand.deserialize raw).properties.rotation
        = readInt32BE raw 20) ∧
    (250 < (readUInt8 raw 56 : Int) →
      (MixEffectKeyDVEUpdateCommand.deserialize raw).properties.rate = 250) ∧
    ((readUInt8 raw 56 : Int) ≤ 250 →
      (MixEffectKeyDVEUpdateCommand.deserialize raw).properties.rate
        = (readUInt8 raw 56 : Int)) ∧
    0 ≤ (MixEffectKeyDVEUpdateCommand.deserialize raw).mixEffect ∧
    (MixEffectKeyDVEUpdateCommand.deserialize raw).mixEffect ≤ 3 ∧
    0 ≤ (MixEffectKeyDVEUpdateCommand.deserialize raw).upstreamKeyerId ∧
    (MixEffectKeyDVEUpdateCommand.deserialize raw).upstreamKeyerId ≤ 3 ∧
    (MixEffectKeyDVEUpdateCommand.deserialize raw).properties.valid := by
  simp only [MixEffectKeyDVEUpdateCommand.deserialize]
  refine ⟨?_, ?_, ?_, ?_, ?_, ?_, ?_, ?_, ?_, ?_⟩
  · intro h; exact parseNumberBetween_lt _ _ _ h
  · intro h; exact parseNumberBetween_gt _ _ _ h (by decide)
  · intro h1 h2; exact parseNumberBetween_mem _ _ _ h1 h2
  · intro h; exact parseNumberBetween_gt _ _ _ h (by decide)
  · intro h
    exact parseNumberBetween_mem _ _ _ (by positivity) h
  · exact (parseNumberBetween_bounds _ _ _ (by decide)).1
  · exact (parseNumberBetween_bounds _ _ _ (by decide)).2
  · exact (parseNumberBetween_bounds _ _ _ (by decide)).1
  · exact (parseNumberBetween_bounds _ _ _ (by decide)).2
  · simp only [UpstreamKeyerDVESettings.valid]
    repeat' apply And.intro
    all_goals
      first
      | exact (parseNumberBetween_bounds _ _ _ (by decide)).1
      | exact (parseNumberBetween_bounds _ _ _ (by decide)).2
      | exact parseEnum_bb_mem _

/-- C3: idempotence of notifier application.  Applying a decoded
`MixEffectKeyDVEUpdateCommand` twice yields the same tree state as applying
it once, and both applications return the same change path (the returned
pairs are equal). -/
theorem applyToState_idem (c : MixEffectKeyDVEUpdateCommand) (s : AtemState) :
    c.applyToState (c.applyToState s).1 = c.applyToState s := by
  simp only [MixEffectKeyDVEUpdateCommand.applyToState, alLookup_alSet_self,
    Option.getD_some, alSet_alSet_self]

/-- C4: acknowledgment-tracker settlement is exactly-once.  An unknown
tracking identifier makes `_resolveCommand` and `_rejectCommand` no-ops;
a registered identifier is settled exactly once with exactly one settlement
event, the entry is removed from the sent-queue, and a second resolve or
reject of the same identifier is a no-op on the whole state. -/
theorem settle_exactly_once (a : Atem) (trackingId : Nat) :
    (alLookup a._sentQueue trackingId = none →
      a._resolveCommand trackingId = a ∧ a._rejectCommand trackingId = a) ∧
    (∀ c, alLookup a._sentQueue trackingId = some c →
      alLookup (a._resolveCommand trackingId)._sentQueue trackingId = none ∧
      (a._resolveCommand trackingId).settled = a.settled ++
        [{ trackingId := trackingId, kind := SettleKind.resolved,
           value := SettleValue.cmd c }] ∧
      alLookup (a._rejectCommand trackingId)._sentQueue trackingId = none ∧
      (a._rejectCommand trackingId).settled = a.settled ++
        [{ trackingId := trackingId, kind := SettleKind.rejected,
           value := SettleValue.cmd c }] ∧
      (a._resolveCommand trackingId)._resolveCommand trackingId
        = a._resolveCommand trackingId ∧
      (a._resolveCommand trackingId)._rejectCommand trackingId
        = a._resolveCommand trackingId ∧
      (a._rejectCommand trackingId)._resolveCommand trackingId
        = a._rejectCommand trackingId ∧
      (a._rejectCommand trackingId)._rejectCommand trackingId
        = a._rejectCommand trackingId) := by
  constructor
  · intro h
    constructor <;> simp [Atem._resolveCommand, Atem._rejectCommand, h]
  · intro c h
    simp [Atem._resolveCommand, Atem._rejectCommand, h, alLookup_alErase_self]

/-- C5 (amended): the tracking identifier `sendCommand` registers a command
under is exactly the socket's next wire packet id, read at submission time —
it is not assigned independently of the wire sequence number. -/
theorem sendCommand_registers_under_nextPacketId (a : Atem) (command : Cmd) :
    (a.sendCommand command).2 = a.socket.nextPacketId ∧
    alLookup (a.sendCommand command).1._sentQueue a.socket.nextPacketId
      = some command := by
  constructor
  · rfl
  · simp [Atem.sendCommand, alLookup_alSet_self]

/-- C5 counterexample: two `Atem` values identical in every component except
the socket's wire sequence counter (5 vs 9) register the same submitted
command under different tracking identifiers, so the tracking identifier is
not assigned independently of the wire sequence number. -/
theorem sendCommand_tid_counterexample :
    (sampleAtemAt5.sendCommand (Cmd.generic 0)).2
      ≠ (sampleAtemAt9.sendCommand (Cmd.generic 0)).2 ∧
    sampleAtemAt5.state = sampleAtemAt9.state ∧
    sampleAtemAt5._sentQueue = sampleAtemAt9._sentQueue ∧
    sampleAtemAt5.settled = sampleAtemAt9.settled ∧
    sampleAtemAt5.socket.localPacketId = 5 ∧
    sampleAtemAt9.socket.localPacketId = 9 := by
  refine ⟨?_, rfl, rfl, rfl, rfl, rfl⟩
  decide

/-- Helper for C6: rejecting every key of the sent-queue in order empties
the queue and logs exactly one rejection per pending command, carrying that
command as the rejection value. -/
theorem fail_all_pending (q : List (Nat × Cmd)) (st : AtemState)
    (ev : List SettleEvent) (sock : AtemSocket)
    (h : (q.map Prod.fst).Nodup) :
    (q.map Prod.fst).foldl Atem._rejectCommand
        { state := st, _sentQueue := q, settled := ev, socket := sock } =
      { state := st, _sentQueue := [], settled := ev ++ q.map
          (fun p => { trackingId := p.1, kind := SettleKind.rejected,
                      value := SettleValue.cmd p.2 }), socket := sock } := by
  induction q generalizing ev with
  | nil => simp
  | cons hd tl ih =>
      obtain ⟨k, c⟩ := hd
      simp only [List.map_cons, List.nodup_cons] at h
      simp only [List.map_cons, List.foldl_cons]
      have h1 : Atem._rejectCommand
          { state := st, _sentQueue := (k, c) :: tl, settled := ev, socket := sock } k =
          { state := st, _sentQueue := tl, settled := ev ++
              [{ trackingId := k, kind := SettleKind.rejected,
                 value := SettleValue.cmd c }], socket := sock } := by
        simp [Atem._rejectCommand, alLookup, alErase, alErase_of_not_mem tl k h.1]
      rw [h1, ih _ h.2]
      simp

/-- C6 (amended): disconnect fails all pending work.  When the session
disconnects with K commands pending, every outstanding tracking identifier
is rejected exactly once — the rejection value being the stored command
object itself, as `_rejectCommand` rejects with the command rather than a
connection-lost error — and no pending command remains registered. -/
theorem disconnect_rejects_all (a : Atem)
    (h : (a._sentQueue.map Prod.fst).Nodup) :
    (a.onDisconnect)._sentQueue = [] ∧
    (a.onDisconnect).settled = a.settled ++ a._sentQueue.map
      (fun p => { trackingId := p.1, kind := SettleKind.rejected,
                  value := SettleValue.cmd p.2 }) := by
  obtain ⟨st, q, ev, sock⟩ := a
  unfold Atem.onDisconnect
  rw [fail_all_pending q st ev sock h]
  exact ⟨rfl, rfl⟩

/-- C6 witness: the disconnect flow at a concrete `Atem` with two pending
commands. -/
theorem disconnect_rejects_all_witness :
    (sampleAtem.onDisconnect)._sentQueue = [] ∧
    (sampleAtem.onDisconnect).settled = sampleAtem.settled ++ sampleAtem._sentQueue.map
      (fun p => { trackingId := p.1, kind := SettleKind.rejected,
                  value := SettleValue.cmd p.2 }) :=
  disconnect_rejects_all sampleAtem (by decide)

/-- C6 counterexample: with two concrete commands pending, the disconnect
flow rejects each exactly once, but the value each rejection carries is the
stored command object, not a connection-lost error value — refuting the
claim's "rejected ... with a connection-lost error" at this input. -/
theorem disconnect_rejection_value_is_command :
    (sampleAtem.onDisconnect).settled =
      [{ trackingId := 5, kind := SettleKind.rejected,
         value := SettleValue.cmd (Cmd.generic 7) },
       { trackingId := 9, kind := SettleKind.rejected,
         value := SettleValue.cmd (Cmd.mixEffectKeyDVE sampleDVECommand) }] ∧
    ∀ e ∈ (sampleAtem.onDisconnect).settled, e.value ≠ SettleValue.connectionLost := by
  decide

/-- C7: protocol-version gating.  `setSuperSourceProperties` submits a
`SuperSourcePropertiesV8Command` carrying the given `ssrcId` exactly when
the mirrored state's `info.apiVersion` is at least `V8_0`, submits the
legacy `SuperSourcePropertiesCommand` otherwise, and registers whichever
command it built in the sent-queue under the returned tracking id. -/
theorem setSuperSourceProperties_gated (a : Atem) (newProps : SuperSourceProps)
    (ssrcId : Int) :
    ((a.setSuperSourceProperties newProps ssrcId).2.2
        = Cmd.superSourcePropertiesV8 ssrcId newProps
      ↔ ProtocolVersion.V8_0 ≤ a.state.info.apiVersion) ∧
    (¬ ProtocolVersion.V8_0 ≤ a.state.info.apiVersion →
      (a.setSuperSourceProperties newProps ssrcId).2.2
        = Cmd.superSourceProperties newProps) ∧
    alLookup (a.setSuperSourceProperties newProps ssrcId).1._sentQueue
        (a.setSuperSourceProperties newProps ssrcId).2.1
      = some (a.setSuperSourceProperties newProps ssrcId).2.2 := by
  by_cases h : ProtocolVersion.V8_0 ≤ a.state.info.apiVersion <;>
    simp [Atem.setSuperSourceProperties, h, Atem.sendCommand, alLookup_alSet_self]

/-- C8: frame property of DVE notifier application followed by
`_mutateState`.  With the addressed mix effect and keyer present in the
tree, the application returns exactly the single path
`video.ME.m.upstreamKeyers.k.dveSettings` and one `stateChanged` emission
per returned path; every other bus is unchanged, the addressed bus keeps
its other fields and every other keyer, the addressed keyer keeps its other
fields and gets exactly the command's `dveSettings`, and `info` is
untouched. -/
theorem applyToState_frame (c : MixEffectKeyDVEUpdateCommand) (s : AtemState)
    (me : MixEffect) (uk : UpstreamKeyer)
    (hme : alLookup s.video.ME c.mixEffect = some me)
    (huk : alLookup me.upstreamKeyers c.upstreamKeyerId = some uk) :
    (Atem._mutateState c s).2 =
      ["video.ME." ++ toString c.mixEffect ++ ".upstreamKeyers." ++
        toString c.upstreamKeyerId ++ ".dveSettings"] ∧
    (∀ m', m' ≠ c.mixEffect →
      alLookup (Atem._mutateState c s).1.video.ME m' = alLookup s.video.ME m') ∧
    alLookup (Atem._mutateState c s).1.video.ME c.mixEffect =
      some
        { me with
          upstreamKeyers :=
            alSet me.upstreamKeyers c.upstreamKeyerId
              { uk with dveSettings := c.properties } } ∧
    (∀ m' k', m' ≠ c.mixEffect →
      (Atem._mutateState c s).1.lookupKeyer m' k' = s.lookupKeyer m' k') ∧
    (∀ k', k' ≠ c.upstreamKeyerId →
      (Atem._mutateState c s).1.lookupKeyer c.mixEffect k'
        = s.lookupKeyer c.mixEffect k') ∧
    (Atem._mutateState c s).1.lookupKeyer c.mixEffect c.upstreamKeyerId =
      some { uk with dveSettings := c.properties } ∧
    (Atem._mutateState c s).1.info = s.info := by
  simp only [Atem._mutateState, MixEffectKeyDVEUpdateCommand.applyToState,
    hme, huk, Option.getD_some]
  refine ⟨trivial, ?_, ?_, ?_, ?_, ?_, trivial⟩
  · intro m' hm
    exact alLookup_alSet_ne _ _ _ _ hm
  · exact alLookup_alSet_self _ _ _
  · intro m' k' hm
    simp [AtemState.lookupKeyer, alLookup_alSet_ne _ _ _ _ hm]
  · intro k' hk
    simp [AtemState.lookupKeyer, alLookup_alSet_self, hme,
      alLookup_alSet_ne _ _ _ _ hk]
  · simp [AtemState.lookupKeyer, alLookup_alSet_self]

/-- C8 witness: the frame property at a concrete update (bus 1, keyer 2)
against `sampleState`, whose bus 1 is `sampleME1` holding `sampleKeyer`
at index 2. -/
theorem applyToState_frame_witness :
    (Atem._mutateState sampleDVEUpdate sampleState).2 =
      ["video.ME." ++ toString sampleDVEUpdate.mixEffect ++ ".upstreamKeyers." ++
        toString sampleDVEUpdate.upstreamKeyerId ++ ".dveSettings"] ∧
    (∀ m', m' ≠ sampleDVEUpdate.mixEffect →
      alLookup (Atem._mutateState sampleDVEUpdate sampleState).1.video.ME m'
        = alLookup sampleState.video.ME m') ∧
    alLookup (Atem._mutateState sampleDVEUpdate sampleState).1.video.ME
        sampleDVEUpdate.mixEffect =
      some
        { sampleME1 with
          upstreamKeyers :=
            alSet sampleME1.upstreamKeyers sampleDVEUpdate.upstreamKeyerId
              { sampleKeyer with dveSettings := sampleDVEUpdate.properties } } ∧
    (∀ m' k', m' ≠ sampleDVEUpdate.mixEffect →
      (Atem._mutateState sampleDVEUpdate sampleState).1.lookupKeyer m' k'
        = sampleState.lookupKeyer m' k') ∧
    (∀ k', k' ≠ sampleDVEUpdate.upstreamKeyerId →
      (Atem._mutateState sampleDVEUpdate sampleState).1.lookupKeyer
          sampleDVEUpdate.mixEffect k'
        = sampleState.lookupKeyer sampleDVEUpdate.mixEffect k') ∧
    (Atem._mutateState sampleDVEUpdate sampleState).1.lookupKeyer
        sampleDVEUpdate.mixEffect sampleDVEUpdate.upstreamKeyerId =
      some { sampleKeyer with dveSettings := sampleDVEUpdate.properties } ∧
    (Atem._mutateState sampleDVEUpdate sampleState).1.info = sampleState.info :=
  applyToState_frame sampleDVEUpdate sampleState sampleME1 sampleKeyer
    (by decide) (by decide)

/-- C9: the promise settles with the submitted command object itself.  After
`sendCommand` registers a command, acknowledgment of its tracking identifier
resolves with that same command value, and timeout rejects with that same
command value — not with a separate result or error value. -/
theorem sendCommand_settles_with_command (a : Atem) (command : Cmd) :
    ((a.sendCommand command).1._resolveCommand (a.sendCommand command).2).settled
      = (a.sendCommand command).1.settled ++
        [{ trackingId := (a.sendCommand command).2, kind := SettleKind.resolved,
           value := SettleValue.cmd command }] ∧
    ((a.sendCommand command).1._rejectCommand (a.sendCommand command).2).settled
      = (a.sendCommand command).1.settled ++
        [{ trackingId := (a.sendCommand command).2, kind := SettleKind.rejected,
           value := SettleValue.cmd command }] := by
  have h : alLookup (a.sendCommand command).1._sentQueue (a.sendCommand command).2
      = some command := by
    simp [Atem.sendCommand, alLookup_alSet_self, AtemSocket.nextPacketId]
  constructor <;> simp [Atem._resolveCommand, Atem._rejectCommand, h]

/-- C10: boolean flags are decoded by strict equality with 1.  For every raw
buffer, `borderEnabled`, `shadowEnabled` and `maskEnabled` decode to `true`
exactly when the corresponding byte equals 1; any other byte value (2, 255,
…) decodes to `false`. -/
theorem dve_bool_flags_strict (raw : Buffer) :
    ((MixEffectKeyDVEUpdateCommand.deserialize raw).properties.borderEnabled = true
      ↔ byteAt raw 24 = 1) ∧
    ((MixEffectKeyDVEUpdateCommand.deserialize raw).properties.shadowEnabled = true
      ↔ byteAt raw 25 = 1) ∧
    ((MixEffectKeyDVEUpdateCommand.deserialize raw).properties.maskEnabled = true
      ↔ byteAt raw 47 = 1) := by
  simp only [MixEffectKeyDVEUpdateCommand.deserialize]
  refine ⟨?_, ?_, ?_⟩ <;> simp [beq_iff_eq]

end AtemConn
